import Mathlib

/-!
Shallow embedding of `solar_consumer/save_forecast.py` and verification of its
specification.

Modelling conventions:
* A pandas `DataFrame` is a list of column names together with a list of rows,
  each row a list of cell values (`Value`).  A cell is an integer, a rational
  or a string; timestamps are modelled as integer seconds since the epoch
  (so `pd.Timedelta(hours=0.25)` is 900 seconds and `floor("15min")` is
  `t - t % 900`), and `pd.to_datetime` on already-parsed timestamps is the
  identity and is therefore not reified.
* The two ORM backends and the filesystem are modelled by an effect trace:
  each call into `get_site_by_client_site_name`/`create_site`,
  `insert_generation_values`, `session.commit`, `insert_forecast_values`,
  `nowcasting_datamodel.save`, `os.makedirs` and `DataFrame.to_csv` appends
  one `Effect` to the trace.  The `siteResolve` effect records a call of
  `get_or_create_pvsite` (the site lookup) together with the
  `capacity_override_kw` argument it was given.
* The site table behind the ORM is a state value (`SiteDB`): an association
  list from client site name to site records plus a counter supplying fresh
  location uuids.  The broad `except Exception` around the lookup in
  `get_or_create_pvsite` is modelled by its only pure failure mode: the name
  being absent from the table.
* Python exceptions are `Except String`; each operation returns its result
  together with the effects performed before returning or raising.  Functions
  that mutate a caller-supplied `DataFrame` in place additionally return the
  caller-visible final state of that frame.
* `pd.Timestamp.now` is modelled by an explicit `now : Int` parameter.
-/

namespace SolarConsumer

/-- A cell of a pandas `DataFrame`: an integer, a rational number (used for
the fractional horizon minutes), or a string (used for TSO zone tags). -/
inductive Value where
  | int (n : Int)
  | rat (q : ℚ)
  | str (s : String)
deriving DecidableEq, Repr

/-- A pandas `DataFrame`: named columns and rows of cells.  Rows are stored
positionally; `cell` resolves a column label to a position. -/
structure DataFrame where
  cols : List String
  rows : List (List Value)
deriving DecidableEq, Repr

/-- Position of a column label, as pandas column resolution. -/
def DataFrame.colIdx (df : DataFrame) (c : String) : Option Nat :=
  df.cols.findIdx? (fun c2 => c2 == c)

/-- The cell of row `r` in column `c` of `df`. -/
def DataFrame.cell (df : DataFrame) (r : List Value) (c : String) : Option Value :=
  (df.colIdx c).bind (fun i => r.get? i)

/-- pandas `df.empty`: a frame with no rows (or no columns at all) is empty. -/
def DataFrame.isEmptyTbl (df : DataFrame) : Bool :=
  df.rows.isEmpty || df.cols.isEmpty

/-- pandas `df[df[c] == v]`: keep the rows whose cell in column `c` equals
`v` (rows of a missing column never match; the enclosing operations check the
column exists before filtering, mirroring the pandas `KeyError`). -/
def DataFrame.filterEq (df : DataFrame) (c : String) (v : Value) : DataFrame :=
  { cols := df.cols, rows := df.rows.filter (fun r => df.cell r c == some v) }

/-- pandas `df.rename(columns=m)`: relabel columns through the mapping,
leaving unmapped labels unchanged.  Row data is untouched. -/
def DataFrame.rename (df : DataFrame) (m : List (String × String)) : DataFrame :=
  { cols := df.cols.map (fun c => (List.lookup c m).getD c), rows := df.rows }

/-- pandas `df[c] = v` for a constant `v`: overwrite the column if it exists,
otherwise append it. -/
def DataFrame.setConstCol (df : DataFrame) (c : String) (v : Value) : DataFrame :=
  match df.colIdx c with
  | some i => { cols := df.cols, rows := df.rows.map (fun r => r.set i v) }
  | none => { cols := df.cols ++ [c], rows := df.rows.map (fun r => r ++ [v]) }

/-- pandas `df[cs]` column selection (the callers verify the labels exist
first, mirroring the pandas `KeyError`; the default cell is never reached on
well-formed frames). -/
def DataFrame.select (df : DataFrame) (cs : List String) : DataFrame :=
  { cols := cs,
    rows := df.rows.map (fun r => cs.map (fun c => (df.cell r c).getD (Value.int 0))) }

/-- pandas `df[c] = f(df[src])`: append a fresh column computed cell-wise from
an existing column (the callers only use fresh labels `c`). -/
def DataFrame.addColBy (df : DataFrame) (c src : String) (f : Value → Value) : DataFrame :=
  { cols := df.cols ++ [c],
    rows := df.rows.map (fun r => r ++ [f ((df.cell r src).getD (Value.int 0))]) }

/-- pandas `df.drop(columns=[c], errors="ignore")`: remove every column whose
label is `c`, or return the frame unchanged when the label is absent. -/
def DataFrame.dropCol (df : DataFrame) (c : String) : DataFrame :=
  if df.cols.contains c then
    { cols := df.cols.filter (fun c2 => c2 ≠ c),
      rows := df.rows.map (fun r => ((df.cols.zip r).filter (fun p => p.1 ≠ c)).map Prod.snd) }
  else df

/-- Numeric reading of a cell, for `Series.max()`. -/
def valNumQ : Value → Option ℚ
  | Value.int n => some (n : ℚ)
  | Value.rat q => some q
  | Value.str _ => none

/-- pandas `df[c].max()` over the numeric cells of column `c`. -/
def DataFrame.colMaxQ (df : DataFrame) (c : String) : Option ℚ :=
  ((df.rows.filterMap (fun r => df.cell r c)).filterMap valNumQ).max?

/-- Python `int(...)` on a rational: truncation toward zero. -/
def pyInt (q : ℚ) : Int :=
  Int.tdiv q.num q.den

/-- `PVSiteEditMetadata` as used by the module: a client site name and the
site coordinates. -/
structure PVSite where
  client_site_name : String
  latitude : String
  longitude : String
deriving DecidableEq, Repr

/-- A persisted site record, as returned by lookup or creation. -/
structure Site where
  location_uuid : Nat
  client_site_name : String
  latitude : String
  longitude : String
  country : String
  capacity_kw : Int
deriving DecidableEq, Repr

/-- The site table behind the ORM: client site name to record, plus a counter
for fresh location uuids. -/
structure SiteDB where
  sites : List (String × Site)
  nextUuid : Nat
deriving DecidableEq, Repr

/-- The `forecast_meta` dictionary passed to `insert_forecast_values`. -/
structure ForecastMeta where
  location_uuid : Nat
  timestamp_utc : Int
  forecast_version : String
deriving DecidableEq, Repr

/-- One call into an external store (ORM backends or filesystem). -/
inductive Effect where
  | siteResolve (client_site_name : String) (capacity_override_kw : Option Int)
  | siteCreate (client_site_name country : String) (capacity_kw : Int)
  | insertGeneration (df : DataFrame)
  | commit
  | insertForecast (df : DataFrame) (meta : ForecastMeta)
      (ml_model_name ml_model_version : String)
  | bulkSave (forecasts : List Nat)
  | makedirs (dir : String)
  | writeCsv (path : String) (df : DataFrame)
deriving DecidableEq, Repr

/-- Default NL national site. -/
def nl_national : PVSite :=
  { client_site_name := "nl_national", latitude := "52.15", longitude := "5.23" }

/-- German TSO site `50Hertz`. -/
def de_50hertz : PVSite :=
  { client_site_name := "50Hertz", latitude := "52.53", longitude := "13.37" }

/-- German TSO site `Amprion`. -/
def de_amprion : PVSite :=
  { client_site_name := "Amprion", latitude := "51.52", longitude := "7.45" }

/-- German TSO site `TenneT`. -/
def de_tennet : PVSite :=
  { client_site_name := "TenneT", latitude := "52.38", longitude := "5.17" }

/-- German TSO site `TransnetBW`. -/
def de_transnetbw : PVSite :=
  { client_site_name := "TransnetBW", latitude := "48.78", longitude := "9.18" }

/-- `DE_TSO_SITES`, in the insertion order of the Python dict. -/
def DE_TSO_SITES : List (String × PVSite) :=
  [("TransnetBW", de_transnetbw), ("50Hertz", de_50hertz), ("TenneT", de_tennet),
   ("Amprion", de_amprion)]

/-- `DE_TSO_CAPACITY`: actual installed capacities (kW) by TSO. -/
def DE_TSO_CAPACITY : List (String × Int) :=
  [("TransnetBW", 10770000), ("50Hertz", 18175000), ("TenneT", 21882000),
   ("Amprion", 16506000)]

/-- Capacity chosen when a site is created: explicit override first, then the
per-TSO table for country `de` (a missing key is the Python `KeyError`,
hence `none`), else the flat 20 GW default. -/
def resolveCapacity (country name : String) (capacity_override_kw : Option Int) :
    Option Int :=
  match capacity_override_kw with
  | some c => some c
  | none =>
    if country = "de" then List.lookup name DE_TSO_CAPACITY
    else some 20000000

/-- `get_or_create_pvsite`: look the site up by client site name; on the only
pure failure mode of the lookup (name absent, standing for the broad
`except Exception`) create it with the resolved capacity.  Returns the site
and the updated table, plus the effect trace; `Except.error` is the
uncaught `KeyError` of `DE_TSO_CAPACITY[...]`. -/
def get_or_create_pvsite (db : SiteDB) (pvsite : PVSite) (country : String)
    (capacity_override_kw : Option Int) :
    Except String (Site × SiteDB) × List Effect :=
  match List.lookup pvsite.client_site_name db.sites with
  | some site =>
    (Except.ok (site, db), [Effect.siteResolve pvsite.client_site_name capacity_override_kw])
  | none =>
    match resolveCapacity country pvsite.client_site_name capacity_override_kw with
    | none =>
      (Except.error "KeyError",
       [Effect.siteResolve pvsite.client_site_name capacity_override_kw])
    | some capacity =>
      let site : Site :=
        { location_uuid := db.nextUuid,
          client_site_name := pvsite.client_site_name,
          latitude := pvsite.latitude, longitude := pvsite.longitude,
          country := country, capacity_kw := capacity }
      (Except.ok (site, { sites := (pvsite.client_site_name, site) :: db.sites,
                          nextUuid := db.nextUuid + 1 }),
       [Effect.siteResolve pvsite.client_site_name capacity_override_kw,
        Effect.siteCreate pvsite.client_site_name country capacity])

/-- The column rename applied to generation data before insertion. -/
def genRenameMap : List (String × String) :=
  [("solar_generation_kw", "power_kw"), ("target_datetime_utc", "start_utc")]

/-- Message of the fatal input error for an unsupported generation country. -/
def genCountryMsg : String :=
  "Only generation data from the following countries is supported when saving: nl, de"

/-- Message of the fatal input error for an unsupported forecast country. -/
def fcCountryMsg : String :=
  "Only NL forecast data is supported when saving (atm)."

/-- Message of the fatal input error for a missing CSV directory. -/
def csvDirMsg : String :=
  "CSV directory is not provided for CSV saving."

/-- The bucket the generation loop selects for registry key `ts`: the rows
whose `tso_zone` equals `ts` for country `de`, the whole frame otherwise. -/
def genBucket (generation_data : DataFrame) (country ts : String) : DataFrame :=
  if country = "de" then generation_data.filterEq "tso_zone" (Value.str ts)
  else generation_data

/-- The per-site loop of `save_generation_to_site_db`: for each registry
entry, filter the rows (by `tso_zone` for `de`, all rows otherwise), skip
empty buckets, otherwise resolve the site, rename the columns, stamp the
`site_uuid`, insert and commit. -/
def genLoop (db : SiteDB) (sites : List (String × PVSite)) (generation_data : DataFrame)
    (country : String) (capacity_override : Option Int) :
    Except String SiteDB × List Effect :=
  match sites with
  | [] => (Except.ok db, [])
  | (tso, pvsite) :: rest =>
    if (genBucket generation_data country tso).isEmptyTbl then
      genLoop db rest generation_data country capacity_override
    else
      match get_or_create_pvsite db pvsite country capacity_override with
      | (Except.error e, eff1) => (Except.error e, eff1)
      | (Except.ok (site, db2), eff1) =>
        let bucket2 :=
          ((genBucket generation_data country tso).rename genRenameMap).setConstCol
            "site_uuid" (Value.int (site.location_uuid : Int))
        ((genLoop db2 rest generation_data country capacity_override).1,
         eff1 ++ [Effect.insertGeneration bucket2, Effect.commit]
           ++ (genLoop db2 rest generation_data country capacity_override).2)

/-- `save_generation_to_site_db`: empty-frame early return, country
validation, one global capacity override from the maximum of the optional
`capacity_kw` column, then the per-site loop.  A `de` call on a frame
without a `tso_zone` column raises the pandas `KeyError` on the first
filter, before any store effect. -/
def save_generation_to_site_db (generation_data : DataFrame) (db : SiteDB)
    (country : String) : Except String SiteDB × List Effect :=
  if generation_data.isEmptyTbl then (Except.ok db, [])
  else
    match (if country = "nl" then some [("nl_national", nl_national)]
           else if country = "de" then some DE_TSO_SITES
           else none) with
    | none => (Except.error genCountryMsg, [])
    | some country_sites =>
      if country = "de" && !(generation_data.cols.contains "tso_zone") then
        (Except.error "KeyError", [])
      else
        let capacity_override :=
          if generation_data.cols.contains "capacity_kw" then
            (generation_data.colMaxQ "capacity_kw").map pyInt
          else none
        genLoop db country_sites generation_data country capacity_override

/-- The column rename applied (in place) to forecast data. -/
def fcRenameMap : List (String × String) :=
  [("solar_generation_kw", "forecast_power_kw"), ("target_datetime_utc", "start_utc")]

/-- `start + pd.Timedelta(hours=0.25)` on a timestamp cell. -/
def addSeconds : Value → Int → Value
  | Value.int t, d => Value.int (t + d)
  | v, _ => v

/-- `(start - timestamp_utc).dt.total_seconds() / 60` on a timestamp cell. -/
def horizonMinutes : Value → Int → Value
  | Value.int t, ts => Value.rat (((t : ℚ) - (ts : ℚ)) / 60)
  | v, _ => v

/-- The reshaping of the renamed forecast frame: keep exactly
`forecast_power_kw` and `start_utc`, then derive `end_utc` and
`horizon_minutes`. -/
def reshapeForecast (renamed : DataFrame) (timestamp_utc : Int) : DataFrame :=
  let fd1 := renamed.select ["forecast_power_kw", "start_utc"]
  let fd2 := fd1.addColBy "end_utc" "start_utc" (fun v => addSeconds v 900)
  fd2.addColBy "horizon_minutes" "start_utc" (fun v => horizonMinutes v timestamp_utc)

/-- `save_forecasts_to_site_db`: country validation, site resolution for the
NL national site (no override), issuance timestamp floored to 15 minutes,
in-place column rename visible to the caller, reshape, and one forecast
insertion.  The middle component of the result is the caller-visible final
state of the input frame (the rename is `inplace=True`; the later
reassignments rebind a local name only). -/
def save_forecasts_to_site_db (forecast_data : DataFrame) (db : SiteDB)
    (model_tag model_version : String) (country : String) (now : Int) :
    Except String SiteDB × DataFrame × List Effect :=
  if country ≠ "nl" then (Except.error fcCountryMsg, forecast_data, [])
  else
    match get_or_create_pvsite db nl_national country none with
    | (Except.error e, eff1) => (Except.error e, forecast_data, eff1)
    | (Except.ok (site, db2), eff1) =>
      let timestamp_utc := now - now % 900
      let meta : ForecastMeta :=
        { location_uuid := site.location_uuid, timestamp_utc := timestamp_utc,
          forecast_version := model_version }
      let renamed := forecast_data.rename fcRenameMap
      if renamed.cols.contains "forecast_power_kw" && renamed.cols.contains "start_utc" then
        (Except.ok db2, renamed,
         eff1 ++ [Effect.insertForecast (reshapeForecast renamed timestamp_utc) meta
                    model_tag model_version])
      else (Except.error "KeyError", renamed, eff1)

/-- `save_forecasts_to_db`: empty-list early return, otherwise one bulk save
of the whole sequence (forecast objects are opaque and numbered). -/
def save_forecasts_to_db (forecasts : List Nat) : List Effect :=
  if forecasts.isEmpty then [] else [Effect.bulkSave forecasts]

/-- `save_forecasts_to_csv`: empty-frame early return, missing-directory
error, then `makedirs` and one CSV write of the frame with the
`_sa_instance_state` column dropped (in place, visible to the caller; the
write is `index=False`, so the effect carries exactly the table).  The
middle component is the caller-visible final state of the input frame. -/
def save_forecasts_to_csv (forecasts : DataFrame) (csv_dir : String) :
    Except String Unit × DataFrame × List Effect :=
  if forecasts.isEmptyTbl then (Except.ok (), forecasts, [])
  else if csv_dir = "" then (Except.error csvDirMsg, forecasts, [])
  else
    let cleaned := forecasts.dropCol "_sa_instance_state"
    (Except.ok (), cleaned,
     [Effect.makedirs csv_dir,
      Effect.writeCsv (csv_dir ++ "/forecast_data.csv") cleaned])

/-! Concrete inputs used by witnesses and counterexamples. -/

/-- An empty frame with the two domain columns. -/
def exEmptyDf : DataFrame :=
  { cols := ["solar_generation_kw", "target_datetime_utc"], rows := [] }

/-- An empty site table. -/
def exDb0 : SiteDB := { sites := [], nextUuid := 0 }

/-- A one-row generation/forecast frame. -/
def exGenDf : DataFrame :=
  { cols := ["solar_generation_kw", "target_datetime_utc"],
    rows := [[Value.int 100, Value.int 3600]] }

/-- A two-row `de` frame: one `TenneT` row (capacity 500) and one `Amprion`
row (capacity 800); the other two TSO buckets are empty. -/
def exDeDf : DataFrame :=
  { cols := ["solar_generation_kw", "target_datetime_utc", "tso_zone", "capacity_kw"],
    rows := [[Value.int 100, Value.int 3600, Value.str "TenneT", Value.int 500],
             [Value.int 200, Value.int 3600, Value.str "Amprion", Value.int 800]] }

/-! Helper lemmas. -/

/-- Dropping a column removes every occurrence of its label. -/
lemma dropCol_label_not_mem (df : DataFrame) (c : String) :
    c ∉ (df.dropCol c).cols := by
  unfold DataFrame.dropCol
  split
  · intro hmem
    simp only [List.mem_filter, decide_eq_true_eq] at hmem
    exact hmem.2 rfl
  · next hcon =>
    intro hmem
    exact hcon (by simpa [List.contains, List.elem_iff] using hmem)

/-- Dropping an absent column is the identity. -/
lemma dropCol_absent (df : DataFrame) (c : String) (h : c ∉ df.cols) :
    df.dropCol c = df := by
  unfold DataFrame.dropCol
  rw [if_neg]
  intro hcon
  exact h (by simpa [List.contains, List.elem_iff] using hcon)

/-! Claim theorems. -/

/-- C1 (amended): on an empty input table (or empty object sequence), the
generation save, the forecast-object save and the CSV export return normally
with an empty effect trace — no site lookup or creation, no insert, no
commit, no file write. -/
theorem c1_empty_input_no_store_calls (df dfc : DataFrame) (db : SiteDB)
    (country dir : String) (l : List Nat)
    (h1 : df.isEmptyTbl = true) (h2 : dfc.isEmptyTbl = true) (h3 : l = []) :
    save_generation_to_site_db df db country = (Except.ok db, [])
    ∧ save_forecasts_to_db l = []
    ∧ save_forecasts_to_csv dfc dir = (Except.ok (), dfc, []) := by
  refine ⟨?_, ?_, ?_⟩
  · simp [save_generation_to_site_db, h1]
  · simp [save_forecasts_to_db, h3]
  · simp [save_forecasts_to_csv, h2]

/-- Witness for C1 at a concrete empty frame and empty sequence. -/
theorem c1_empty_input_no_store_calls_witness :
    save_generation_to_site_db exEmptyDf exDb0 "nl" = (Except.ok exDb0, [])
    ∧ save_forecasts_to_db [] = []
    ∧ save_forecasts_to_csv exEmptyDf "out" = (Except.ok (), exEmptyDf, []) :=
  c1_empty_input_no_store_calls exEmptyDf exEmptyDf exDb0 "nl" "out" []
    (by decide) (by decide) rfl

/-- C1 counterexample: the forecast-table save has no empty-input check — on
an empty table it still resolves (and here creates) the site and calls the
forecast insert, so its effect trace is not empty. -/
theorem c1_counterexample :
    exEmptyDf.isEmptyTbl = true
    ∧ (save_forecasts_to_site_db exEmptyDf exDb0 "m" "v" "nl" 0).2.2 ≠ [] := by
  decide

/-- C5 (amended): for every NON-EMPTY input table, the generation save with a
country outside nl/de raises before any store effect; the forecast-table
save with a country other than nl raises before any store effect for every
input table. -/
theorem c5_unsupported_country_raises (df dff : DataFrame) (db dbf : SiteDB)
    (country cf tag ver : String) (now : Int)
    (h1 : df.isEmptyTbl = false) (h2 : country ≠ "nl") (h3 : country ≠ "de")
    (h4 : cf ≠ "nl") :
    save_generation_to_site_db df db country = (Except.error genCountryMsg, [])
    ∧ save_forecasts_to_site_db dff dbf tag ver cf now
        = (Except.error fcCountryMsg, dff, []) := by
  constructor
  · simp [save_generation_to_site_db, h1, h2, h3]
  · simp [save_forecasts_to_site_db, h4]

/-- Witness for C5 at a concrete non-empty frame and country `fr`. -/
theorem c5_unsupported_country_raises_witness :
    save_generation_to_site_db exGenDf exDb0 "fr" = (Except.error genCountryMsg, [])
    ∧ save_forecasts_to_site_db exGenDf exDb0 "m" "v" "fr" 0
        = (Except.error fcCountryMsg, exGenDf, []) :=
  c5_unsupported_country_raises exGenDf exGenDf exDb0 exDb0 "fr" "fr" "m" "v" 0
    (by decide) (by decide) (by decide) (by decide)

/-- C5 counterexample: with an EMPTY input table the generation save returns
normally even for an unsupported country (`fr`), because the empty-input
early return precedes the country validation — so no fatal input error is
raised "for every input table". -/
theorem c5_counterexample :
    exEmptyDf.isEmptyTbl = true
    ∧ ("fr" ≠ "nl" ∧ "fr" ≠ "de")
    ∧ save_generation_to_site_db exEmptyDf exDb0 "fr" = (Except.ok exDb0, []) :=
  ⟨by decide, ⟨by decide, by decide⟩, rfl⟩

/-- C9: on a non-empty table, the CSV export raises when no directory is
given, with no filesystem effect; with a directory it performs exactly the
directory creation and one write of the frame (bookkeeping column dropped)
to `forecast_data.csv` inside that directory; dropping the bookkeeping
column tolerates its absence. -/
theorem c9_csv_export (df : DataFrame) (dir : String)
    (h : df.isEmptyTbl = false) :
    (dir = "" → save_forecasts_to_csv df dir
        = (Except.error csvDirMsg, df, []))
    ∧ (dir ≠ "" → save_forecasts_to_csv df dir
        = (Except.ok (), df.dropCol "_sa_instance_state",
           [Effect.makedirs dir,
            Effect.writeCsv (dir ++ "/forecast_data.csv")
              (df.dropCol "_sa_instance_state")]))
    ∧ ("_sa_instance_state" ∉ df.cols → df.dropCol "_sa_instance_state" = df) := by
  refine ⟨?_, ?_, ?_⟩
  · intro hd
    simp [save_forecasts_to_csv, h, hd]
  · intro hd
    simp [save_forecasts_to_csv, h, hd]
  · intro hmem
    exact dropCol_absent df _ hmem

/-- Witness for C9 at a concrete non-empty frame: the missing-directory
error and one concrete write. -/
theorem c9_csv_export_witness :
    save_forecasts_to_csv exGenDf "" = (Except.error csvDirMsg, exGenDf, [])
    ∧ save_forecasts_to_csv exGenDf "out"
        = (Except.ok (), exGenDf.dropCol "_sa_instance_state",
           [Effect.makedirs "out",
            Effect.writeCsv ("out" ++ "/forecast_data.csv")
              (exGenDf.dropCol "_sa_instance_state")]) :=
  ⟨(c9_csv_export exGenDf "" (by decide)).1 rfl,
   (c9_csv_export exGenDf "out" (by decide)).2.1 (by decide)⟩

/-- The site created by resolving `nl_national` against the empty table. -/
def exSiteNl : Site :=
  { location_uuid := 0, client_site_name := "nl_national", latitude := "52.15",
    longitude := "5.23", country := "nl", capacity_kw := 20000000 }

/-- The site table after that creation. -/
def exDb1 : SiteDB := { sites := [("nl_national", exSiteNl)], nextUuid := 1 }

/-- The effect trace of that creation. -/
def exEffNl : List Effect :=
  [Effect.siteResolve "nl_national" none,
   Effect.siteCreate "nl_national" "nl" 20000000]

/-- C8: site resolution creates exactly when the lookup fails (absence being
the only pure failure of the modelled lookup, standing for the broad
exception catch); a successful lookup returns the existing site with no
create and no state change; and a repeated call with the same client site
name finds the site created (or found) by the first call, performing no
create and leaving the table unchanged. -/
theorem c8_get_or_create_idempotent (db : SiteDB) (p : PVSite) (country : String)
    (ov : Option Int) (site : Site) (db2 : SiteDB) (eff : List Effect)
    (h : get_or_create_pvsite db p country ov = (Except.ok (site, db2), eff)) :
    (∀ s, List.lookup p.client_site_name db.sites = some s →
        site = s ∧ db2 = db ∧ ∀ n c cap, Effect.siteCreate n c cap ∉ eff)
    ∧ (List.lookup p.client_site_name db.sites = none →
        ∃ cap, Effect.siteCreate p.client_site_name country cap ∈ eff)
    ∧ get_or_create_pvsite db2 p country ov
        = (Except.ok (site, db2), [Effect.siteResolve p.client_site_name ov]) := by
  cases hl : List.lookup p.client_site_name db.sites with
  | some s =>
    simp only [get_or_create_pvsite, hl, Prod.mk.injEq, Except.ok.injEq] at h
    obtain ⟨⟨hsite, hdb⟩, heff⟩ := h
    subst hsite; subst hdb; subst heff
    refine ⟨?_, ?_, ?_⟩
    · intro s2 hs2
      obtain rfl := Option.some.inj hs2
      exact ⟨rfl, rfl, by simp⟩
    · intro hn
      exact Option.noConfusion hn
    · simp only [get_or_create_pvsite, hl]
  | none =>
    simp only [get_or_create_pvsite, hl] at h
    cases hc : resolveCapacity country p.client_site_name ov with
    | none => rw [hc] at h; exact Prod.noConfusion h (fun h1 _ => Except.noConfusion h1)
    | some cap =>
      rw [hc] at h
      simp only [Prod.mk.injEq, Except.ok.injEq] at h
      obtain ⟨⟨hsite, hdb⟩, heff⟩ := h
      subst hsite; subst hdb; subst heff
      refine ⟨?_, ?_, ?_⟩
      · intro s2 hs2
        exact Option.noConfusion hs2
      · intro _
        exact ⟨cap, by simp⟩
      · simp [get_or_create_pvsite, List.lookup]

/-- Witness for C8: the first call on the empty table creates the NL
national site; the repeated call finds it, performs no create (its trace is
the bare resolve) and leaves the table unchanged. -/
theorem c8_get_or_create_idempotent_witness :
    get_or_create_pvsite exDb1 nl_national "nl" none
      = (Except.ok (exSiteNl, exDb1), [Effect.siteResolve "nl_national" none]) :=
  (c8_get_or_create_idempotent exDb0 nl_national "nl" none exSiteNl exDb1 exEffNl
    rfl).2.2

/-- C4: when a site is created, the capacity obeys the resolution order:
explicit override first, else the per-TSO table for country `de` (keyed by
the client site name), else the flat 20,000,000 kW default. -/
theorem c4_capacity_resolution_order (db : SiteDB) (p : PVSite) (country : String)
    (ov : Option Int) (n ctry : String) (cap : Int)
    (h : Effect.siteCreate n ctry cap ∈ (get_or_create_pvsite db p country ov).2) :
    (∀ c, ov = some c → cap = c)
    ∧ (ov = none → country = "de" → some cap = List.lookup n DE_TSO_CAPACITY)
    ∧ (ov = none → country ≠ "de" → cap = 20000000) := by
  cases hl : List.lookup p.client_site_name db.sites with
  | some s => simp [get_or_create_pvsite, hl] at h
  | none =>
    cases hc : resolveCapacity country p.client_site_name ov with
    | none => simp [get_or_create_pvsite, hl, hc] at h
    | some cap2 =>
      simp only [get_or_create_pvsite, hl, hc] at h
      simp only [List.mem_cons, List.not_mem_nil, or_false,
        Effect.siteCreate.injEq] at h
      rcases h with h | h
      · exact Effect.noConfusion h
      · obtain ⟨rfl, rfl, rfl⟩ := h
        refine ⟨?_, ?_, ?_⟩
        · intro c hov
          rw [hov] at hc
          simp only [resolveCapacity] at hc
          exact (Option.some.inj hc).symm
        · intro hov hde
          rw [hov] at hc
          simp only [resolveCapacity, hde, if_pos rfl] at hc
          exact hc.symm
        · intro hov hde
          rw [hov] at hc
          simp only [resolveCapacity, if_neg hde] at hc
          rw [Option.some.inj hc]

/-- Witness for C4: creating `TransnetBW` with no override in country `de`
uses the capacity from the per-TSO table. -/
theorem c4_capacity_resolution_order_witness :
    some (10770000 : Int) = List.lookup "TransnetBW" DE_TSO_CAPACITY :=
  (c4_capacity_resolution_order exDb0 de_transnetbw "de" none "TransnetBW" "de"
    10770000 (by decide)).2.1 rfl rfl

/-- Resolving the NL national site never raises: the non-`de` capacity
default always exists. -/
lemma goc_nl_ok (db : SiteDB) :
    ∃ site db2 eff, get_or_create_pvsite db nl_national "nl" none
      = (Except.ok (site, db2), eff) := by
  unfold get_or_create_pvsite
  cases List.lookup nl_national.client_site_name db.sites with
  | some s => exact ⟨s, db, _, rfl⟩
  | none => exact ⟨_, _, _, rfl⟩

/-- The forecast rename maps both domain labels away: neither appears among
the renamed columns. -/
lemma fcRename_key_not_mem (df : DataFrame) (k : String)
    (hk : k = "solar_generation_kw" ∨ k = "target_datetime_utc") :
    k ∉ (df.rename fcRenameMap).cols := by
  intro hmem
  simp only [DataFrame.rename, List.mem_map] at hmem
  obtain ⟨c, hc, hfc⟩ := hmem
  by_cases h1 : c = "solar_generation_kw"
  · subst h1
    rcases hk with rfl | rfl <;> simp [fcRenameMap, List.lookup] at hfc
  · by_cases h2 : c = "target_datetime_utc"
    · subst h2
      rcases hk with rfl | rfl <;> simp [fcRenameMap, List.lookup] at hfc
    · have e1 : (c == "solar_generation_kw") = false := beq_eq_false_iff_ne.mpr h1
      have e2 : (c == "target_datetime_utc") = false := beq_eq_false_iff_ne.mpr h2
      simp only [fcRenameMap, List.lookup, e1, e2, Option.getD_none] at hfc
      rcases hk with rfl | rfl
      · exact h1 hfc
      · exact h2 hfc

/-- C10: with country `nl`, the forecast-table save leaves the caller's
frame renamed in place — the two domain labels are gone, replaced by the
storage labels, with the row data untouched — even though it returns no
frame; likewise the CSV export removes the bookkeeping column from the
caller's frame in place. -/
theorem c10_caller_frame_mutation (df : DataFrame) (db : SiteDB) (tag ver : String)
    (now : Int) (dfc : DataFrame) (dir : String)
    (h1 : dfc.isEmptyTbl = false) (h2 : dir ≠ "") :
    (save_forecasts_to_site_db df db tag ver "nl" now).2.1 = df.rename fcRenameMap
    ∧ ("solar_generation_kw" ∈ df.cols →
        "forecast_power_kw" ∈ (df.rename fcRenameMap).cols)
    ∧ "solar_generation_kw" ∉ (df.rename fcRenameMap).cols
    ∧ ("target_datetime_utc" ∈ df.cols → "start_utc" ∈ (df.rename fcRenameMap).cols)
    ∧ "target_datetime_utc" ∉ (df.rename fcRenameMap).cols
    ∧ (df.rename fcRenameMap).rows = df.rows
    ∧ (save_forecasts_to_csv dfc dir).2.1 = dfc.dropCol "_sa_instance_state"
    ∧ "_sa_instance_state" ∉ (dfc.dropCol "_sa_instance_state").cols := by
  obtain ⟨site, db2, eff, he⟩ := goc_nl_ok db
  refine ⟨?_, ?_, ?_, ?_, ?_, rfl, ?_, ?_⟩
  · simp only [save_forecasts_to_site_db, ne_eq, not_true_eq_false, if_false, he]
    split <;> rfl
  · intro h
    simp only [DataFrame.rename, List.mem_map]
    exact ⟨"solar_generation_kw", h, rfl⟩
  · exact fcRename_key_not_mem df _ (Or.inl rfl)
  · intro h
    simp only [DataFrame.rename, List.mem_map]
    exact ⟨"target_datetime_utc", h, rfl⟩
  · exact fcRename_key_not_mem df _ (Or.inr rfl)
  · simp [save_forecasts_to_csv, h1, h2]
  · exact dropCol_label_not_mem dfc _

/-- Witness for C10 at a concrete frame, table, directory and time: the
caller-visible frame after the forecast save is the renamed frame, and the
caller-visible table after the CSV export has the bookkeeping column
dropped. -/
theorem c10_caller_frame_mutation_witness :
    (save_forecasts_to_site_db exGenDf exDb0 "m" "v" "nl" 0).2.1
        = exGenDf.rename fcRenameMap
    ∧ (save_forecasts_to_csv exGenDf "out").2.1
        = exGenDf.dropCol "_sa_instance_state" :=
  ⟨(c10_caller_frame_mutation exGenDf exDb0 "m" "v" 0 exGenDf "out"
      (by decide) (by decide)).1,
   (c10_caller_frame_mutation exGenDf exDb0 "m" "v" 0 exGenDf "out"
      (by decide) (by decide)).2.2.2.2.2.2.1⟩

/-- The trace of one site resolution: the resolve record (carrying the
override it was called with), possibly followed by one creation. -/
lemma goc_effects (db : SiteDB) (p : PVSite) (country : String) (o : Option Int) :
    (get_or_create_pvsite db p country o).2
      = [Effect.siteResolve p.client_site_name o]
    ∨ ∃ cap, (get_or_create_pvsite db p country o).2
      = [Effect.siteResolve p.client_site_name o,
         Effect.siteCreate p.client_site_name country cap] := by
  unfold get_or_create_pvsite
  cases List.lookup p.client_site_name db.sites with
  | some s => exact Or.inl rfl
  | none =>
    cases resolveCapacity country p.client_site_name o with
    | none => exact Or.inl rfl
    | some cap => exact Or.inr ⟨cap, rfl⟩

/-- A resolve record in a site-resolution trace carries that call's name and
override. -/
lemma goc_resolve_mem (db : SiteDB) (p : PVSite) (country : String) (o : Option Int)
    (n : String) (ov : Option Int)
    (h : Effect.siteResolve n ov ∈ (get_or_create_pvsite db p country o).2) :
    n = p.client_site_name ∧ ov = o := by
  rcases goc_effects db p country o with he | ⟨cap, he⟩ <;> rw [he] at h <;>
    simp at h <;> exact h

/-- A create record in a site-resolution trace carries that call's name and
country. -/
lemma goc_create_mem (db : SiteDB) (p : PVSite) (country : String) (o : Option Int)
    (n c : String) (cap : Int)
    (h : Effect.siteCreate n c cap ∈ (get_or_create_pvsite db p country o).2) :
    n = p.client_site_name ∧ c = country := by
  rcases goc_effects db p country o with he | ⟨cap2, he⟩ <;> rw [he] at h <;>
    simp at h
  · exact ⟨h.1, h.2.1⟩

/-- Every resolve record in the generation loop's trace carries the loop's
single override and the client site name of a registry entry whose bucket is
non-empty. -/
lemma genLoop_resolve_mem (sites : List (String × PVSite)) (db : SiteDB)
    (generation_data : DataFrame) (country : String) (o : Option Int)
    (n : String) (ov : Option Int)
    (h : Effect.siteResolve n ov
        ∈ (genLoop db sites generation_data country o).2) :
    ov = o ∧ ∃ ts p, (ts, p) ∈ sites ∧ p.client_site_name = n
      ∧ (genBucket generation_data country ts).isEmptyTbl = false := by
  induction sites generalizing db with
  | nil => simp [genLoop] at h
  | cons hd rest ih =>
    obtain ⟨ts, p⟩ := hd
    simp only [genLoop] at h
    by_cases hb : (genBucket generation_data country ts).isEmptyTbl = true
    · rw [if_pos hb] at h
      obtain ⟨hov, ts2, p2, hmem, hn, hne⟩ := ih db h
      exact ⟨hov, ts2, p2, List.mem_cons_of_mem _ hmem, hn, hne⟩
    · rw [if_neg hb] at h
      rcases hg : get_or_create_pvsite db p country o with ⟨res1, eff1⟩
      rw [hg] at h
      cases res1 with
      | error e =>
        have h2 : Effect.siteResolve n ov ∈ (get_or_create_pvsite db p country o).2 := by
          rw [hg]; exact h
        obtain ⟨hn, hov⟩ := goc_resolve_mem db p country o n ov h2
        exact ⟨hov, ts, p, List.mem_cons_self _ _, hn.symm,
          Bool.eq_false_iff.mpr hb⟩
      | ok pr =>
        obtain ⟨site, db2⟩ := pr
        replace h : Effect.siteResolve n ov ∈ eff1
            ++ [Effect.insertGeneration
                  (((genBucket generation_data country ts).rename genRenameMap).setConstCol
                    "site_uuid" (Value.int (site.location_uuid : Int))),
                Effect.commit]
            ++ (genLoop db2 rest generation_data country o).2 := h
        simp only [List.mem_append, List.mem_cons, List.not_mem_nil, or_false] at h
        rcases h with (h | h | h) | h
        · have h2 : Effect.siteResolve n ov ∈ (get_or_create_pvsite db p country o).2 := by
            rw [hg]; exact h
          obtain ⟨hn, hov⟩ := goc_resolve_mem db p country o n ov h2
          exact ⟨hov, ts, p, List.mem_cons_self _ _, hn.symm,
            Bool.eq_false_iff.mpr hb⟩
        · exact Effect.noConfusion h
        · exact Effect.noConfusion h
        · obtain ⟨hov, ts2, p2, hmem, hn, hne⟩ := ih db2 h
          exact ⟨hov, ts2, p2, List.mem_cons_of_mem _ hmem, hn, hne⟩

/-- Every create record in the generation loop's trace carries the loop's
country and the client site name of a registry entry whose bucket is
non-empty. -/
lemma genLoop_create_mem (sites : List (String × PVSite)) (db : SiteDB)
    (generation_data : DataFrame) (country : String) (o : Option Int)
    (n c : String) (cap : Int)
    (h : Effect.siteCreate n c cap
        ∈ (genLoop db sites generation_data country o).2) :
    c = country ∧ ∃ ts p, (ts, p) ∈ sites ∧ p.client_site_name = n
      ∧ (genBucket generation_data country ts).isEmptyTbl = false := by
  induction sites generalizing db with
  | nil => simp [genLoop] at h
  | cons hd rest ih =>
    obtain ⟨ts, p⟩ := hd
    simp only [genLoop] at h
    by_cases hb : (genBucket generation_data country ts).isEmptyTbl = true
    · rw [if_pos hb] at h
      obtain ⟨hc, ts2, p2, hmem, hn, hne⟩ := ih db h
      exact ⟨hc, ts2, p2, List.mem_cons_of_mem _ hmem, hn, hne⟩
    · rw [if_neg hb] at h
      rcases hg : get_or_create_pvsite db p country o with ⟨res1, eff1⟩
      rw [hg] at h
      cases res1 with
      | error e =>
        have h2 : Effect.siteCreate n c cap ∈ (get_or_create_pvsite db p country o).2 := by
          rw [hg]; exact h
        obtain ⟨hn, hc⟩ := goc_create_mem db p country o n c cap h2
        exact ⟨hc, ts, p, List.mem_cons_self _ _, hn.symm,
          Bool.eq_false_iff.mpr hb⟩
      | ok pr =>
        obtain ⟨site, db2⟩ := pr
        replace h : Effect.siteCreate n c cap ∈ eff1
            ++ [Effect.insertGeneration
                  (((genBucket generation_data country ts).rename genRenameMap).setConstCol
                    "site_uuid" (Value.int (site.location_uuid : Int))),
                Effect.commit]
            ++ (genLoop db2 rest generation_data country o).2 := h
        simp only [List.mem_append, List.mem_cons, List.not_mem_nil, or_false] at h
        rcases h with (h | h | h) | h
        · have h2 : Effect.siteCreate n c cap ∈ (get_or_create_pvsite db p country o).2 := by
            rw [hg]; exact h
          obtain ⟨hn, hc⟩ := goc_create_mem db p country o n c cap h2
          exact ⟨hc, ts, p, List.mem_cons_self _ _, hn.symm,
            Bool.eq_false_iff.mpr hb⟩
        · exact Effect.noConfusion h
        · exact Effect.noConfusion h
        · obtain ⟨hc, ts2, p2, hmem, hn, hne⟩ := ih db2 h
          exact ⟨hc, ts2, p2, List.mem_cons_of_mem _ hmem, hn, hne⟩

/-- In the `de` registry the dict key and the site's client site name
coincide on every entry. -/
lemma de_sites_key (ts : String) (p : PVSite) (h : (ts, p) ∈ DE_TSO_SITES) :
    p.client_site_name = ts := by
  fin_cases h <;> rfl

/-- C2: whatever the country, every site resolution performed by one
generation-save call receives the same override: the truncated maximum of
the `capacity_kw` column over the whole input frame when that column is
present, and no override when it is absent. -/
theorem c2_capacity_override_global (generation_data : DataFrame) (db : SiteDB)
    (country n : String) (ov : Option Int)
    (h : Effect.siteResolve n ov
        ∈ (save_generation_to_site_db generation_data db country).2) :
    ov = (if generation_data.cols.contains "capacity_kw" then
            (generation_data.colMaxQ "capacity_kw").map pyInt
          else none) := by
  unfold save_generation_to_site_db at h
  split at h
  · simp at h
  · split at h
    · simp at h
    · split at h
      · simp at h
      · exact (genLoop_resolve_mem _ _ _ _ _ _ _ h).1

/-- Witness for C2: in a two-TSO `de` frame with per-row capacities 500 and
800, the resolve of the `TenneT` bucket receives the global maximum 800. -/
theorem c2_capacity_override_global_witness :
    (some 800 : Option Int)
      = (if exDeDf.cols.contains "capacity_kw" then
           (exDeDf.colMaxQ "capacity_kw").map pyInt
         else none) :=
  c2_capacity_override_global exDeDf exDb0 "de" "TenneT" (some 800) (by decide)

/-- On country `de` the generation save reduces to the empty check, the
`tso_zone` presence check, and the loop over the four TSO registry entries
with the global override. -/
lemma save_generation_de (generation_data : DataFrame) (db : SiteDB) :
    save_generation_to_site_db generation_data db "de"
      = if generation_data.isEmptyTbl then (Except.ok db, [])
        else if !(generation_data.cols.contains "tso_zone") then
          (Except.error "KeyError", [])
        else genLoop db DE_TSO_SITES generation_data "de"
          (if generation_data.cols.contains "capacity_kw" then
             (generation_data.colMaxQ "capacity_kw").map pyInt
           else none) := rfl

/-- C3: for country `de`, a row lies in the bucket of one of the four TSO
names exactly when its `tso_zone` cell equals that name; a row matching no
name is in no bucket; and when a TSO's bucket is empty the generation save
performs no site lookup and no site creation for that TSO. -/
theorem c3_de_partition (generation_data : DataFrame) (db : SiteDB) (tso : String)
    (htso : tso ∈ ["TransnetBW", "50Hertz", "TenneT", "Amprion"]) :
    (∀ r, r ∈ (generation_data.filterEq "tso_zone" (Value.str tso)).rows ↔
        r ∈ generation_data.rows
        ∧ generation_data.cell r "tso_zone" = some (Value.str tso))
    ∧ (∀ r ∈ generation_data.rows,
        generation_data.cell r "tso_zone" ≠ some (Value.str tso) →
        r ∉ (generation_data.filterEq "tso_zone" (Value.str tso)).rows)
    ∧ ((generation_data.filterEq "tso_zone" (Value.str tso)).isEmptyTbl = true →
        (∀ ov, Effect.siteResolve tso ov
            ∉ (save_generation_to_site_db generation_data db "de").2)
        ∧ (∀ c cap, Effect.siteCreate tso c cap
            ∉ (save_generation_to_site_db generation_data db "de").2)) := by
  have hbucket : ∀ r, r ∈ (generation_data.filterEq "tso_zone" (Value.str tso)).rows ↔
      r ∈ generation_data.rows
      ∧ generation_data.cell r "tso_zone" = some (Value.str tso) := by
    intro r
    simp [DataFrame.filterEq, List.mem_filter]
  refine ⟨hbucket, ?_, ?_⟩
  · intro r _ hne hmem
    exact hne ((hbucket r).mp hmem).2
  · intro hempty
    constructor
    · intro ov hmem
      rw [save_generation_de] at hmem
      split at hmem
      · simp at hmem
      · split at hmem
        · simp at hmem
        · obtain ⟨_, ts, p, hts, hname, hne⟩ :=
            genLoop_resolve_mem _ _ _ _ _ _ _ hmem
          have hkey := de_sites_key ts p hts
          rw [hkey] at hname
          subst hname
          simp [genBucket] at hne
          rw [hne] at hempty
          exact Bool.noConfusion hempty
    · intro c cap hmem
      rw [save_generation_de] at hmem
      split at hmem
      · simp at hmem
      · split at hmem
        · simp at hmem
        · obtain ⟨_, ts, p, hts, hname, hne⟩ :=
            genLoop_create_mem _ _ _ _ _ _ _ _ hmem
          have hkey := de_sites_key ts p hts
          rw [hkey] at hname
          subst hname
          simp [genBucket] at hne
          rw [hne] at hempty
          exact Bool.noConfusion hempty

/-- Witness for C3: in the concrete `de` frame the `50Hertz` bucket is
empty, so no site resolution for `50Hertz` appears in the trace. -/
theorem c3_de_partition_witness :
    Effect.siteResolve "50Hertz" (some 800)
      ∉ (save_generation_to_site_db exDeDf exDb0 "de").2 :=
  ((c3_de_partition exDeDf exDb0 "50Hertz" (by decide)).2.2 (by decide)).1
    (some 800)

/-- A site-resolution trace never contains a forecast insertion. -/
lemma goc_no_insertForecast (db : SiteDB) (p : PVSite) (country : String)
    (o : Option Int) (df2 : DataFrame) (meta : ForecastMeta) (tg vr : String) :
    Effect.insertForecast df2 meta tg vr ∉ (get_or_create_pvsite db p country o).2 := by
  rcases goc_effects db p country o with he | ⟨cap, he⟩ <;> rw [he] <;> simp

/-- Every row of the reshaped forecast frame is the kept power and start
cells followed by the derived end and horizon cells. -/
lemma reshapeForecast_rows (renamed : DataFrame) (ts : Int) (r : List Value)
    (h : r ∈ (reshapeForecast renamed ts).rows) :
    ∃ a b, r = [a, b, addSeconds b 900, horizonMinutes b ts] := by
  simp only [reshapeForecast, DataFrame.addColBy, DataFrame.select,
    List.mem_map] at h
  obtain ⟨r2, ⟨r1, ⟨r0, hr0, hg0⟩, hg1⟩, hg2⟩ := h
  subst hg0; subst hg1; subst hg2
  exact ⟨(renamed.cell r0 "forecast_power_kw").getD (Value.int 0),
         (renamed.cell r0 "start_utc").getD (Value.int 0), rfl⟩

/-- Start cell of a reshaped row. -/
lemma reshape_cell_start (renamed : DataFrame) (ts : Int) (a b : Value) :
    (reshapeForecast renamed ts).cell [a, b, addSeconds b 900, horizonMinutes b ts]
      "start_utc" = some b := rfl

/-- End cell of a reshaped row. -/
lemma reshape_cell_end (renamed : DataFrame) (ts : Int) (a b : Value) :
    (reshapeForecast renamed ts).cell [a, b, addSeconds b 900, horizonMinutes b ts]
      "end_utc" = some (addSeconds b 900) := rfl

/-- Horizon cell of a reshaped row. -/
lemma reshape_cell_horizon (renamed : DataFrame) (ts : Int) (a b : Value) :
    (reshapeForecast renamed ts).cell [a, b, addSeconds b 900, horizonMinutes b ts]
      "horizon_minutes" = some (horizonMinutes b ts) := rfl

/-- On country `nl` the forecast save reduces to the site resolution result
followed by the column guard and the single forecast insertion. -/
lemma save_forecasts_nl_red (forecast_data : DataFrame) (db : SiteDB)
    (tag ver : String) (now : Int) (site : Site) (db2 : SiteDB) (eff : List Effect)
    (he : get_or_create_pvsite db nl_national "nl" none
        = (Except.ok (site, db2), eff)) :
    save_forecasts_to_site_db forecast_data db tag ver "nl" now
      = (if ((forecast_data.rename fcRenameMap).cols.contains "forecast_power_kw"
              && (forecast_data.rename fcRenameMap).cols.contains "start_utc") = true then
           (Except.ok db2, forecast_data.rename fcRenameMap,
            eff ++ [Effect.insertForecast
              (reshapeForecast (forecast_data.rename fcRenameMap) (now - now % 900))
              { location_uuid := site.location_uuid,
                timestamp_utc := now - now % 900, forecast_version := ver }
              tag ver])
         else (Except.error "KeyError", forecast_data.rename fcRenameMap, eff)) := by
  unfold save_forecasts_to_site_db
  rw [if_neg (by simp), he]

/-- Any forecast insertion in the trace of an `nl` forecast save carries the
reshaped frame and the floored issuance timestamp. -/
lemma save_forecasts_insert_shape (forecast_data : DataFrame) (db : SiteDB)
    (tag ver : String) (now : Int) (df2 : DataFrame) (meta : ForecastMeta)
    (tg vr : String)
    (h : Effect.insertForecast df2 meta tg vr
        ∈ (save_forecasts_to_site_db forecast_data db tag ver "nl" now).2.2) :
    df2 = reshapeForecast (forecast_data.rename fcRenameMap) (now - now % 900)
    ∧ meta.timestamp_utc = now - now % 900 := by
  obtain ⟨site, db2, eff, he⟩ := goc_nl_ok db
  have hne : Effect.insertForecast df2 meta tg vr ∉ eff := by
    intro hmem
    exact goc_no_insertForecast db nl_national "nl" none df2 meta tg vr
      (by rw [he]; exact hmem)
  rw [save_forecasts_nl_red forecast_data db tag ver now site db2 eff he] at h
  split at h
  · replace h : Effect.insertForecast df2 meta tg vr ∈ eff
        ++ [Effect.insertForecast
              (reshapeForecast (forecast_data.rename fcRenameMap) (now - now % 900))
              { location_uuid := site.location_uuid,
                timestamp_utc := now - now % 900, forecast_version := ver }
              tag ver] := h
    rw [List.mem_append] at h
    rcases h with h | h
    · exact absurd h hne
    · simp only [List.mem_cons, List.not_mem_nil, or_false,
        Effect.insertForecast.injEq] at h
      obtain ⟨hdf, hmeta, _, _⟩ := h
      exact ⟨hdf, by rw [hmeta]⟩
  · replace h : Effect.insertForecast df2 meta tg vr ∈ eff := h
    exact absurd h hne

/-- C6: the issuance timestamp in the forecast-run metadata is the call's
current time floored to the 15-minute boundary, and every inserted row's
horizon equals (start − issuance) in minutes (a rational, possibly negative
or fractional), computed against that one shared issuance timestamp. -/
theorem c6_horizon_is_start_minus_issuance (forecast_data : DataFrame) (db : SiteDB)
    (tag ver : String) (now : Int) (df2 : DataFrame) (meta : ForecastMeta)
    (tg vr : String)
    (h : Effect.insertForecast df2 meta tg vr
        ∈ (save_forecasts_to_site_db forecast_data db tag ver "nl" now).2.2) :
    meta.timestamp_utc = now - now % 900
    ∧ ∀ r ∈ df2.rows, ∀ t : Int, df2.cell r "start_utc" = some (Value.int t) →
        df2.cell r "horizon_minutes"
          = some (Value.rat (((t : ℚ) - (meta.timestamp_utc : ℚ)) / 60)) := by
  obtain ⟨hdf2, hts⟩ :=
    save_forecasts_insert_shape forecast_data db tag ver now df2 meta tg vr h
  subst hdf2
  refine ⟨hts, ?_⟩
  intro r hr t hcell
  obtain ⟨a, b, rfl⟩ := reshapeForecast_rows _ _ r hr
  have hb : b = Value.int t := by
    rw [reshape_cell_start] at hcell
    exact Option.some.inj hcell
  subst hb
  rw [reshape_cell_horizon, hts]
  rfl

/-- C7: every inserted forecast row's interval end equals its interval start
plus 15 minutes (900 seconds), unconditionally. -/
theorem c7_interval_end_is_start_plus_15min (forecast_data : DataFrame) (db : SiteDB)
    (tag ver : String) (now : Int) (df2 : DataFrame) (meta : ForecastMeta)
    (tg vr : String)
    (h : Effect.insertForecast df2 meta tg vr
        ∈ (save_forecasts_to_site_db forecast_data db tag ver "nl" now).2.2) :
    ∀ r ∈ df2.rows, ∀ t : Int, df2.cell r "start_utc" = some (Value.int t) →
        df2.cell r "end_utc" = some (Value.int (t + 900)) := by
  obtain ⟨hdf2, _⟩ :=
    save_forecasts_insert_shape forecast_data db tag ver now df2 meta tg vr h
  subst hdf2
  intro r hr t hcell
  obtain ⟨a, b, rfl⟩ := reshapeForecast_rows _ _ r hr
  have hb : b = Value.int t := by
    rw [reshape_cell_start] at hcell
    exact Option.some.inj hcell
  subst hb
  rw [reshape_cell_end]
  rfl

/-- Forecast-run metadata of the concrete run at `now = 1000`. -/
def exMeta : ForecastMeta :=
  { location_uuid := 0, timestamp_utc := 900, forecast_version := "v" }

/-- The single reshaped row of that run: power 100, start 3600, end 4500,
horizon (3600 − 900)/60 = 45 minutes. -/
def exFcRow : List Value :=
  [Value.int 100, Value.int 3600, Value.int 4500, Value.rat 45]

/-- The reshaped frame of that run. -/
def exFcDf2 : DataFrame :=
  { cols := ["forecast_power_kw", "start_utc", "end_utc", "horizon_minutes"],
    rows := [exFcRow] }

/-- The forecast insertion of the concrete run at `now = 1000` is in the
trace (established by rewriting: the horizon cell needs rational
arithmetic). -/
lemma exFc_insert_mem :
    Effect.insertForecast exFcDf2 exMeta "m" "v"
      ∈ (save_forecasts_to_site_db exGenDf exDb0 "m" "v" "nl" 1000).2.2 := by
  rw [save_forecasts_nl_red exGenDf exDb0 "m" "v" 1000 exSiteNl exDb1 exEffNl rfl,
    if_pos (by decide)]
  refine List.mem_append_right _ ?_
  have h2 : horizonMinutes (Value.int 3600) 900 = Value.rat 45 := by
    simp only [horizonMinutes, Value.rat.injEq]
    norm_num
  have hdf : reshapeForecast (exGenDf.rename fcRenameMap) (1000 - 1000 % 900)
      = exFcDf2 := by
    have h1 : reshapeForecast (exGenDf.rename fcRenameMap) (1000 - 1000 % 900)
        = { cols := ["forecast_power_kw", "start_utc", "end_utc", "horizon_minutes"],
            rows := [[Value.int 100, Value.int 3600, Value.int 4500,
                      horizonMinutes (Value.int 3600) 900]] } := rfl
    rw [h1, h2]
    rfl
  rw [hdf]
  exact List.mem_singleton.mpr rfl

/-- Witness for C6 at the concrete run: issuance 900 = 1000 floored, and the
row with start 3600 gets horizon (3600 − 900)/60. -/
theorem c6_horizon_is_start_minus_issuance_witness :
    exMeta.timestamp_utc = 1000 - 1000 % 900
    ∧ exFcDf2.cell exFcRow "horizon_minutes"
        = some (Value.rat (((3600 : ℚ) - ((exMeta.timestamp_utc : Int) : ℚ)) / 60)) :=
  ⟨(c6_horizon_is_start_minus_issuance exGenDf exDb0 "m" "v" 1000 exFcDf2 exMeta
      "m" "v" exFc_insert_mem).1,
   (c6_horizon_is_start_minus_issuance exGenDf exDb0 "m" "v" 1000 exFcDf2 exMeta
      "m" "v" exFc_insert_mem).2 exFcRow (by decide) 3600 (by decide)⟩

/-- Witness for C7 at the concrete run: the row with start 3600 gets end
4500. -/
theorem c7_interval_end_is_start_plus_15min_witness :
    exFcDf2.cell exFcRow "end_utc" = some (Value.int (3600 + 900)) :=
  c7_interval_end_is_start_plus_15min exGenDf exDb0 "m" "v" 1000 exFcDf2 exMeta
    "m" "v" exFc_insert_mem exFcRow (by decide) 3600 (by decide)

end SolarConsumer
